import Mathlib

/-!
Verification of the InsForge OAuth example client (`server.js`).

The development shallowly embeds the PKCE helpers, the login and callback
route handlers and the `/api/organizations` proxy as pure Lean functions.
Randomness (the PKCE verifier and the state nonce) and the network
responses (token endpoint, profile endpoint, resource server) are passed
in as explicit parameters; session mutation is explicit state passing on
a `Session` record.  JavaScript truthiness of optional string values and
strict (`!==`) comparison of possibly-undefined query/session values are
modelled by `jsTruthy` and by equality on `Option String`.
-/

namespace InsforgeOAuth

/-- Default configuration value `INSFORGE_CLIENT_ID` from `config`. -/
def INSFORGE_CLIENT_ID : String := "your_client_id"

/-- Default configuration value `CALLBACK_URL` from `config`. -/
def CALLBACK_URL : String := "http://localhost:4000/auth/callback"

/-- Configuration value `SCOPES` from `config`. -/
def SCOPES : String := "user:read organizations:read projects:read projects:write"

/-- JavaScript truthiness of a string-or-undefined value: `undefined` and
the empty string are falsy, every other string is truthy. -/
def jsTruthy : Option String → Bool
  | none => false
  | some s => s != ""

/-- JavaScript `x || ''` on a string-or-undefined value. -/
def jsOrEmpty : Option String → String
  | none => ""
  | some s => s

/-!
SHA-256, translated from the standard the `crypto` module implements
(FIPS 180-4), operating on byte lists as natural numbers below 256 with
32-bit words as natural numbers reduced modulo `w32`.
-/

/-- The 32-bit modulus. -/
def w32 : Nat := 4294967296

/-- Right rotation of a 32-bit word by `n` bits. -/
def rotr (n x : Nat) : Nat := (x >>> n) + ((x % (2 ^ n)) <<< (32 - n))

/-- Fuel-bounded binary search for the largest `m` with `f m ≤ n`,
maintaining `f lo ≤ n < f hi`. -/
def searchRoot (f : Nat → Nat) : Nat → Nat → Nat → Nat → Nat
  | 0, _, lo, _ => lo
  | fuel + 1, n, lo, hi =>
      if hi ≤ lo + 1 then lo
      else
        let mid := (lo + hi) / 2
        if f mid ≤ n then searchRoot f fuel n mid hi else searchRoot f fuel n lo mid

/-- Integer square root by binary search. -/
def sqrtFloor (n : Nat) : Nat := searchRoot (fun m => m * m) 200 n 0 (n + 1)

/-- Integer cube root by binary search. -/
def cbrtFloor (n : Nat) : Nat := searchRoot (fun m => m * m * m) 200 n 0 (n + 1)

/-- The first 64 primes, whose roots seed the SHA-256 constants. -/
def primes64 : List Nat :=
  [2, 3, 5, 7, 11, 13, 17, 19, 23, 29, 31, 37, 41, 43, 47, 53,
   59, 61, 67, 71, 73, 79, 83, 89, 97, 101, 103, 107, 109, 113, 127, 131,
   137, 139, 149, 151, 157, 163, 167, 173, 179, 181, 191, 193, 197, 199, 211, 223,
   227, 229, 233, 239, 241, 251, 257, 263, 269, 271, 277, 281, 283, 293, 307, 311]

/-- The SHA-256 round constants (FIPS 180-4 §4.2.2): the first 32 bits of
the fractional parts of the cube roots of the first 64 primes. -/
def k256 : List Nat := primes64.map (fun p => cbrtFloor (p <<< 96) % w32)

/-- The SHA-256 initial hash value (FIPS 180-4 §5.3.3): the first 32 bits
of the fractional parts of the square roots of the first 8 primes. -/
def hInit : List Nat := (primes64.take 8).map (fun p => sqrtFloor (p <<< 64) % w32)

/-- SHA-256 message padding: append `0x80`, zero bytes up to 56 mod 64,
then the bit length as eight big-endian bytes. -/
def padMessage (msg : List Nat) : List Nat :=
  let bitLen := msg.length * 8
  let zeros := (120 - ((msg.length + 1) % 64)) % 64
  msg ++ [0x80] ++ List.replicate zeros 0 ++
    [(bitLen >>> 56) % 256, (bitLen >>> 48) % 256, (bitLen >>> 40) % 256, (bitLen >>> 32) % 256,
     (bitLen >>> 24) % 256, (bitLen >>> 16) % 256, (bitLen >>> 8) % 256, bitLen % 256]

/-- Group bytes into big-endian 32-bit words. -/
def bytesToWords : List Nat → List Nat
  | b0 :: b1 :: b2 :: b3 :: rest =>
      (((b0 * 256 + b1) * 256 + b2) * 256 + b3) :: bytesToWords rest
  | _ => []

/-- Extend the 16 block words to 64 schedule words.  The accumulator holds
the words produced so far in reverse order. -/
def extendW : Nat → List Nat → List Nat
  | 0, acc => acc
  | n + 1, acc =>
      let w2 := acc.getD 1 0
      let w7 := acc.getD 6 0
      let w15 := acc.getD 14 0
      let w16 := acc.getD 15 0
      let s0 := (rotr 7 w15) ^^^ (rotr 18 w15) ^^^ (w15 >>> 3)
      let s1 := (rotr 17 w2) ^^^ (rotr 19 w2) ^^^ (w2 >>> 10)
      extendW n (((w16 + s0 + w7 + s1) % w32) :: acc)

/-- The full 64-word message schedule of one 64-byte block. -/
def messageSchedule (block : List Nat) : List Nat :=
  (extendW 48 (bytesToWords block).reverse).reverse

/-- The eight SHA-256 working registers. -/
structure Regs where
  a : Nat
  b : Nat
  c : Nat
  d : Nat
  e : Nat
  f : Nat
  g : Nat
  hh : Nat

/-- One SHA-256 compression round; `kw` is the round constant plus the
schedule word. -/
def sha256Round (r : Regs) (kw : Nat) : Regs :=
  let s1 := (rotr 6 r.e) ^^^ (rotr 11 r.e) ^^^ (rotr 25 r.e)
  let ch := (r.e &&& r.f) ^^^ ((r.e ^^^ (w32 - 1)) &&& r.g)
  let t1 := (r.hh + s1 + ch + kw) % w32
  let s0 := (rotr 2 r.a) ^^^ (rotr 13 r.a) ^^^ (rotr 22 r.a)
  let maj := (r.a &&& r.b) ^^^ (r.a &&& r.c) ^^^ (r.b &&& r.c)
  let t2 := (s0 + maj) % w32
  ⟨(t1 + t2) % w32, r.a, r.b, r.c, (r.d + t1) % w32, r.e, r.f, r.g⟩

/-- Compress one 64-byte block into the running eight-word hash. -/
def compressBlock (hs : List Nat) (block : List Nat) : List Nat :=
  let ws := messageSchedule block
  let kws := (k256.zip ws).map (fun p => p.1 + p.2)
  let r0 : Regs :=
    ⟨hs.getD 0 0, hs.getD 1 0, hs.getD 2 0, hs.getD 3 0,
     hs.getD 4 0, hs.getD 5 0, hs.getD 6 0, hs.getD 7 0⟩
  let rf := kws.foldl sha256Round r0
  [(hs.getD 0 0 + rf.a) % w32, (hs.getD 1 0 + rf.b) % w32, (hs.getD 2 0 + rf.c) % w32,
   (hs.getD 3 0 + rf.d) % w32, (hs.getD 4 0 + rf.e) % w32, (hs.getD 5 0 + rf.f) % w32,
   (hs.getD 6 0 + rf.g) % w32, (hs.getD 7 0 + rf.hh) % w32]

/-- Split a byte list into 64-byte blocks; the first argument is fuel
bounding the recursion by the list length. -/
def toBlocksAux : Nat → List Nat → List (List Nat)
  | 0, _ => []
  | _, [] => []
  | n + 1, bs => bs.take 64 :: toBlocksAux n (bs.drop 64)

/-- SHA-256 of a byte list, as a 32-byte digest. -/
def sha256Bytes (msg : List Nat) : List Nat :=
  let padded := padMessage msg
  let hs := (toBlocksAux padded.length padded).foldl compressBlock hInit
  hs.foldr
    (fun word acc =>
      (word >>> 24) % 256 :: (word >>> 16) % 256 :: (word >>> 8) % 256 :: word % 256 :: acc)
    []

/-- The URL-safe base64 alphabet used by `base64url` encoding. -/
def b64urlAlphabet : List Char :=
  "ABCDEFGHIJKLMNOPQRSTUVWXYZabcdefghijklmnopqrstuvwxyz0123456789-_".data

/-- The base64url character for a 6-bit value. -/
def b64Char (n : Nat) : Char := b64urlAlphabet.getD n 'A'

/-- base64url encoding without padding, as `Buffer.toString('base64url')`
produces. -/
def base64urlEncode : List Nat → List Char
  | b0 :: b1 :: b2 :: rest =>
      b64Char (b0 >>> 2) :: b64Char (((b0 % 4) * 16) + (b1 >>> 4)) ::
        b64Char (((b1 % 16) * 4) + (b2 >>> 6)) :: b64Char (b2 % 64) :: base64urlEncode rest
  | [b0, b1] =>
      [b64Char (b0 >>> 2), b64Char (((b0 % 4) * 16) + (b1 >>> 4)), b64Char ((b1 % 16) * 4)]
  | [b0] => [b64Char (b0 >>> 2), b64Char ((b0 % 4) * 16)]
  | [] => []

/-- The bytes of an ASCII string (PKCE verifiers are base64url-encoded and
hence ASCII, so UTF-8 bytes coincide with code points). -/
def asciiBytes (s : String) : List Nat := s.data.map Char.toNat

/-- `generateCodeChallenge` from `server.js`:
`crypto.createHash('sha256').update(verifier).digest('base64url')`. -/
def generateCodeChallenge (verifier : String) : String :=
  String.mk (base64urlEncode (sha256Bytes (asciiBytes verifier)))

/-!
State tokens.  `generateState` returns 16 random bytes hex-encoded; the
randomness is modelled by quantifying over an arbitrary hex string.
-/

/-- The hex alphabet of `Buffer.toString('hex')`. -/
def hexAlphabet : List Char := "0123456789abcdef".data

/-- A string drawn from the hex alphabet, as `generateState` produces. -/
def isHexString (s : String) : Prop := ∀ c ∈ s.data, c ∈ hexAlphabet

instance (s : String) : Decidable (isHexString s) :=
  inferInstanceAs (Decidable (∀ c ∈ s.data, c ∈ hexAlphabet))

/-- The state stored and sent by `/auth/login`: the raw nonce. -/
def redirectState (nonce : String) : String := nonce

/-- The state stored and sent by `/auth/login-popup`: the nonce with the
fixed `:popup` suffix. -/
def popupState (nonce : String) : String := nonce ++ ":popup"

/-- JavaScript `s.endsWith(suffix)`. -/
def jsEndsWith (s sfx : String) : Bool := List.isSuffixOf sfx.data s.data

/-- The callback's mode detection `state?.endsWith(':popup')`, with the
optional chaining on an absent state yielding a falsy value. -/
def detectPopup : Option String → Bool
  | none => false
  | some s => jsEndsWith s ":popup"

/-!
Sessions, requests and network responses.
-/

/-- The per-user session fields this app reads or writes.  `none` models
an absent (or `undefined`) property. -/
structure Session where
  oauthState : Option String
  codeVerifier : Option String
  accessToken : Option String
  refreshToken : Option String
  user : Option String
deriving DecidableEq, Repr

/-- The query parameters of a callback request. -/
structure CallbackQuery where
  code : Option String
  state : Option String
  error : Option String
  error_description : Option String
deriving DecidableEq, Repr

/-- The JSON body returned by the token endpoint. -/
structure TokenResponse where
  error : Option String
  message : Option String
  access_token : Option String
  refresh_token : Option String
deriving DecidableEq, Repr

/-- The profile endpoint's reply: its `response.ok` flag and the `user`
value of its JSON body. -/
structure ProfileResponse where
  ok : Bool
  user : String
deriving DecidableEq, Repr

/-- How a callback handler ends: the error pages, the popup completion
page, or the redirect to `/`. -/
inductive CallbackResult where
  | providerError (err desc : String)
  | invalidState
  | missingVerifier
  | tokenError (err : String)
  | popupComplete
  | redirectHome
deriving DecidableEq, Repr

/-- A callback handler's observable outcome: the response sent, the final
session, and whether the token endpoint was contacted. -/
structure CallbackOutcome where
  result : CallbackResult
  session : Session
  tokenEndpointCalled : Bool
deriving DecidableEq, Repr

/-- The handler responded with an error page before any token exchange. -/
def isErrorAbort : CallbackResult → Bool
  | .providerError _ _ => true
  | .invalidState => true
  | .missingVerifier => true
  | _ => false

/-- The handler reached completion (popup page or redirect to `/`). -/
def isComplete : CallbackResult → Bool
  | .popupComplete => true
  | .redirectHome => true
  | _ => false

/-- The `/auth/login` handler: stores the fresh verifier and state in the
session and returns the query parameters set on the authorization URL, in
source order. -/
def authLogin (sess : Session) (codeVerifier state : String) :
    Session × List (String × String) :=
  ({ sess with oauthState := some state, codeVerifier := some codeVerifier },
   [("client_id", INSFORGE_CLIENT_ID),
    ("redirect_uri", CALLBACK_URL),
    ("response_type", "code"),
    ("scope", SCOPES),
    ("state", state),
    ("code_challenge", generateCodeChallenge codeVerifier),
    ("code_challenge_method", "S256")])

/-- The `/auth/login-popup` handler: identical to `/auth/login` except the
stored and sent state is the nonce tagged with `:popup`. -/
def authLoginPopup (sess : Session) (codeVerifier stateToken : String) :
    Session × List (String × String) :=
  let state := popupState stateToken
  ({ sess with oauthState := some state, codeVerifier := some codeVerifier },
   [("client_id", INSFORGE_CLIENT_ID),
    ("redirect_uri", CALLBACK_URL),
    ("response_type", "code"),
    ("scope", SCOPES),
    ("state", state),
    ("code_challenge", generateCodeChallenge codeVerifier),
    ("code_challenge_method", "S256")])

/-- Lookup of a query parameter in the built URL. -/
def queryLookup (params : List (String × String)) (key : String) : Option String :=
  (params.find? (fun p => p.1 == key)).map Prod.snd

/-- The `/auth/callback` handler.  The token and profile endpoints'
replies are inputs; `tokenEndpointCalled` records whether the token POST
was issued. -/
def authCallback (sess : Session) (q : CallbackQuery)
    (tr : TokenResponse) (pr : ProfileResponse) : CallbackOutcome :=
  if jsTruthy q.error then
    ⟨.providerError (jsOrEmpty q.error) (jsOrEmpty q.error_description), sess, false⟩
  else
    let isPopup := detectPopup q.state
    if q.state ≠ sess.oauthState then ⟨.invalidState, sess, false⟩
    else if jsTruthy sess.codeVerifier then
      if jsTruthy tr.error then ⟨.tokenError (jsOrEmpty tr.error), sess, true⟩
      else
        let sess1 := { sess with
          accessToken := tr.access_token, refreshToken := tr.refresh_token,
          oauthState := none, codeVerifier := none }
        let sess2 := if pr.ok then { sess1 with user := some pr.user } else sess1
        if isPopup then ⟨.popupComplete, sess2, true⟩ else ⟨.redirectHome, sess2, true⟩
    else ⟨.missingVerifier, sess, false⟩

/-- The `/auth/callback-popup` handler.  It reads only `code` and `state`
from the query; the state check is guarded by the truthiness of the
request's `state` parameter (`if (state && state !== ...)`). -/
def authCallbackPopup (sess : Session) (q : CallbackQuery)
    (tr : TokenResponse) (pr : ProfileResponse) : CallbackOutcome :=
  if jsTruthy q.state ∧ q.state ≠ sess.oauthState then ⟨.invalidState, sess, false⟩
  else if jsTruthy sess.codeVerifier then
    if jsTruthy tr.error then ⟨.tokenError (jsOrEmpty tr.error), sess, true⟩
    else
      let sess1 := { sess with
        accessToken := tr.access_token, refreshToken := tr.refresh_token,
        oauthState := none, codeVerifier := none }
      let sess2 := if pr.ok then { sess1 with user := some pr.user } else sess1
      ⟨.redirectHome, sess2, true⟩
  else ⟨.missingVerifier, sess, false⟩

/-- An HTTP response of the resource proxy. -/
structure ApiResponse where
  status : Nat
  body : String
deriving DecidableEq, Repr

/-- The `/api/organizations` handler: the second component is the
`Authorization` header of the upstream call, `none` when no upstream call
is made. -/
def apiOrganizations (sess : Session) (upstreamBody : String) :
    ApiResponse × Option String :=
  if jsTruthy sess.accessToken then
    (⟨200, upstreamBody⟩, some ("Bearer " ++ jsOrEmpty sess.accessToken))
  else (⟨401, "Not authenticated"⟩, none)

/-!
Theorems for the claims.
-/

/-- C1: the claim as stated — any callback (to either handler) whose
`state` differs from the session's stored state, or whose session lacks a
verifier, aborts with an error without contacting the token endpoint — is
false: `/auth/callback-popup` skips the state comparison when the
request's `state` parameter is absent, so a request with no `state` but a
pending session proceeds to the token exchange. -/
theorem C1_counterexample :
    ¬ (∀ (sess : Session) (q : CallbackQuery) (tr : TokenResponse) (pr : ProfileResponse),
        (q.state ≠ sess.oauthState ∨ jsTruthy sess.codeVerifier = false) →
        (isErrorAbort (authCallback sess q tr pr).result = true ∧
          (authCallback sess q tr pr).tokenEndpointCalled = false) ∧
        (isErrorAbort (authCallbackPopup sess q tr pr).result = true ∧
          (authCallbackPopup sess q tr pr).tokenEndpointCalled = false)) := by
  intro hAll
  have h := hAll ⟨some "s", some "v", none, none, none⟩ ⟨some "c", none, none, none⟩
      ⟨none, none, some "t", some "r"⟩ ⟨false, "u"⟩ (Or.inl (by decide))
  exact absurd h.2.2 (by decide)

/-- C1 (amended): a state mismatch or missing verifier always aborts
`/auth/callback` without contacting the token endpoint; for
`/auth/callback-popup` the same holds provided the request's `state`
parameter is truthy (present and non-empty) — an absent or empty state
bypasses that handler's state check. -/
theorem C1_state_or_verifier_failure_aborts (sess : Session) (q : CallbackQuery)
    (tr : TokenResponse) (pr : ProfileResponse)
    (h : q.state ≠ sess.oauthState ∨ jsTruthy sess.codeVerifier = false) :
    (isErrorAbort (authCallback sess q tr pr).result = true ∧
      (authCallback sess q tr pr).tokenEndpointCalled = false) ∧
    (jsTruthy q.state = true →
      isErrorAbort (authCallbackPopup sess q tr pr).result = true ∧
      (authCallbackPopup sess q tr pr).tokenEndpointCalled = false) := by
  constructor
  · by_cases he : jsTruthy q.error = true
    · simp [authCallback, he, isErrorAbort]
    · by_cases hs : q.state = sess.oauthState
      · have hv : jsTruthy sess.codeVerifier = false := by
          rcases h with h | h
          · exact absurd hs h
          · exact h
        simp [authCallback, he, hs, hv, isErrorAbort]
      · simp [authCallback, he, hs, isErrorAbort]
  · intro hq
    by_cases hs : q.state = sess.oauthState
    · have hv : jsTruthy sess.codeVerifier = false := by
        rcases h with h | h
        · exact absurd hs h
        · exact h
      simp [authCallbackPopup, hs, hv, isErrorAbort]
    · simp [authCallbackPopup, hq, hs, isErrorAbort]

/-- C1 witness: a concrete mismatching callback aborts both handlers. -/
theorem C1_witness :
    ((isErrorAbort (authCallback ⟨some "g", some "v", none, none, none⟩
          ⟨some "c", some "b", none, none⟩ ⟨none, none, some "t", some "r"⟩
          ⟨true, "u"⟩).result = true ∧
      (authCallback ⟨some "g", some "v", none, none, none⟩
          ⟨some "c", some "b", none, none⟩ ⟨none, none, some "t", some "r"⟩
          ⟨true, "u"⟩).tokenEndpointCalled = false)) ∧
    (isErrorAbort (authCallbackPopup ⟨some "g", some "v", none, none, none⟩
          ⟨some "c", some "b", none, none⟩ ⟨none, none, some "t", some "r"⟩
          ⟨true, "u"⟩).result = true ∧
      (authCallbackPopup ⟨some "g", some "v", none, none, none⟩
          ⟨some "c", some "b", none, none⟩ ⟨none, none, some "t", some "r"⟩
          ⟨true, "u"⟩).tokenEndpointCalled = false) :=
  ⟨(C1_state_or_verifier_failure_aborts _ _ _ _ (Or.inl (by decide))).1,
   (C1_state_or_verifier_failure_aborts _ _ _ _ (Or.inl (by decide))).2 (by decide)⟩

/-- C3: the claim as stated — every callback carrying a non-empty `error`
parameter goes straight to the provider-error page with no further step —
is false for `/auth/callback-popup`, which never reads the `error`
parameter: with a matching state and a pending verifier it proceeds to
the token exchange even though the provider reported `access_denied`. -/
theorem C3_counterexample :
    ¬ (∀ (sess : Session) (q : CallbackQuery) (tr : TokenResponse) (pr : ProfileResponse),
        jsTruthy q.error = true →
        authCallback sess q tr pr =
          ⟨.providerError (jsOrEmpty q.error) (jsOrEmpty q.error_description), sess, false⟩ ∧
        authCallbackPopup sess q tr pr =
          ⟨.providerError (jsOrEmpty q.error) (jsOrEmpty q.error_description), sess, false⟩) := by
  intro hAll
  have h := hAll ⟨some "s", some "v", none, none, none⟩
      ⟨some "c", some "s", some "access_denied", none⟩
      ⟨none, none, some "t", some "r"⟩ ⟨false, "u"⟩ (by decide)
  exact absurd h.2 (by decide)

/-- C3 (amended): on `/auth/callback` a truthy `error` parameter
transitions directly to the provider-error page, with no session change
and no token-endpoint contact; `/auth/callback-popup` does not inspect
the `error` (or `error_description`) parameter at all, so its behaviour
is independent of it. -/
theorem C3_provider_error_aborts (sess : Session) (q : CallbackQuery)
    (tr : TokenResponse) (pr : ProfileResponse) (he : jsTruthy q.error = true) :
    authCallback sess q tr pr =
      ⟨.providerError (jsOrEmpty q.error) (jsOrEmpty q.error_description), sess, false⟩ ∧
    (∀ e d : Option String,
      authCallbackPopup sess { q with error := e, error_description := d } tr pr =
        authCallbackPopup sess q tr pr) := by
  refine ⟨by simp [authCallback, he], fun e d => rfl⟩

/-- C3 witness: a concrete provider error aborts `/auth/callback`. -/
theorem C3_witness :
    (authCallback ⟨some "s", some "v", none, none, none⟩
        ⟨none, some "s", some "access_denied", some "denied"⟩
        ⟨none, none, some "t", some "r"⟩ ⟨true, "u"⟩ =
      ⟨.providerError "access_denied" "denied",
        ⟨some "s", some "v", none, none, none⟩, false⟩) ∧
    (authCallbackPopup ⟨some "s", some "v", none, none, none⟩
        ⟨none, some "s", none, none⟩
        ⟨none, none, some "t", some "r"⟩ ⟨true, "u"⟩ =
      authCallbackPopup ⟨some "s", some "v", none, none, none⟩
        ⟨none, some "s", some "access_denied", some "denied"⟩
        ⟨none, none, some "t", some "r"⟩ ⟨true, "u"⟩) :=
  ⟨(C3_provider_error_aborts ⟨some "s", some "v", none, none, none⟩
      ⟨none, some "s", some "access_denied", some "denied"⟩
      ⟨none, none, some "t", some "r"⟩ ⟨true, "u"⟩ (by decide)).1,
   (C3_provider_error_aborts ⟨some "s", some "v", none, none, none⟩
      ⟨none, some "s", some "access_denied", some "denied"⟩
      ⟨none, none, some "t", some "r"⟩ ⟨true, "u"⟩ (by decide)).2 none none⟩

/-- C2: on either handler, a callback with matching state and present
verifier whose token response carries an `error` field ends on the
token-error page surfacing that error, with the session unchanged (so no
token is written); on `/auth/callback` this is the behaviour when no
provider `error` parameter preempted the exchange. -/
theorem C2_token_error_surfaced (sess : Session) (q : CallbackQuery)
    (tr : TokenResponse) (pr : ProfileResponse)
    (hs : q.state = sess.oauthState) (hv : jsTruthy sess.codeVerifier = true)
    (ht : jsTruthy tr.error = true) :
    (jsTruthy q.error = false →
      authCallback sess q tr pr = ⟨.tokenError (jsOrEmpty tr.error), sess, true⟩) ∧
    authCallbackPopup sess q tr pr = ⟨.tokenError (jsOrEmpty tr.error), sess, true⟩ := by
  constructor
  · intro he; simp [authCallback, he, hs, hv, ht]
  · simp [authCallbackPopup, hs, hv, ht]

/-- C2 witness: a concrete `invalid_grant` token reply is surfaced and
writes nothing into the session. -/
theorem C2_witness :
    (authCallback ⟨some "s", some "v", none, none, none⟩ ⟨some "c", some "s", none, none⟩
        ⟨some "invalid_grant", some "bad code", none, none⟩ ⟨true, "u"⟩ =
      ⟨.tokenError "invalid_grant", ⟨some "s", some "v", none, none, none⟩, true⟩) ∧
    (authCallbackPopup ⟨some "s", some "v", none, none, none⟩ ⟨some "c", some "s", none, none⟩
        ⟨some "invalid_grant", some "bad code", none, none⟩ ⟨true, "u"⟩ =
      ⟨.tokenError "invalid_grant", ⟨some "s", some "v", none, none, none⟩, true⟩) :=
  ⟨(C2_token_error_surfaced ⟨some "s", some "v", none, none, none⟩
      ⟨some "c", some "s", none, none⟩ ⟨some "invalid_grant", some "bad code", none, none⟩
      ⟨true, "u"⟩ (by decide) (by decide) (by decide)).1 (by decide),
   (C2_token_error_surfaced ⟨some "s", some "v", none, none, none⟩
      ⟨some "c", some "s", none, none⟩ ⟨some "invalid_grant", some "bad code", none, none⟩
      ⟨true, "u"⟩ (by decide) (by decide) (by decide)).2⟩

/-- C4: on either handler, a successful exchange leaves a session whose
pending state and verifier are absent, whose access and refresh tokens
are those of the token response, and whose user profile is present when
the profile fetch succeeded. -/
theorem C4_success_clears_pending_and_stores_tokens (sess : Session) (q : CallbackQuery)
    (tr : TokenResponse) (pr : ProfileResponse) (atk rtk : String)
    (hs : q.state = sess.oauthState) (hv : jsTruthy sess.codeVerifier = true)
    (ht : jsTruthy tr.error = false)
    (ha : tr.access_token = some atk) (hr : tr.refresh_token = some rtk) :
    (jsTruthy q.error = false →
      (authCallback sess q tr pr).session.oauthState = none ∧
      (authCallback sess q tr pr).session.codeVerifier = none ∧
      (authCallback sess q tr pr).session.accessToken = some atk ∧
      (authCallback sess q tr pr).session.refreshToken = some rtk ∧
      (pr.ok = true → (authCallback sess q tr pr).session.user = some pr.user)) ∧
    ((authCallbackPopup sess q tr pr).session.oauthState = none ∧
      (authCallbackPopup sess q tr pr).session.codeVerifier = none ∧
      (authCallbackPopup sess q tr pr).session.accessToken = some atk ∧
      (authCallbackPopup sess q tr pr).session.refreshToken = some rtk ∧
      (pr.ok = true → (authCallbackPopup sess q tr pr).session.user = some pr.user)) := by
  constructor
  · intro he
    by_cases hok : pr.ok = true <;>
      simp [authCallback, he, hs, hv, ht, ha, hr, hok,
        apply_ite CallbackOutcome.session]
  · by_cases hok : pr.ok = true <;>
      simp [authCallbackPopup, hs, hv, ht, ha, hr, hok]

/-- C4 witness: a concrete successful exchange with a successful profile
fetch ends with tokens and profile stored and the pending fields gone. -/
theorem C4_witness :
    ((authCallback ⟨some "s", some "v", none, none, none⟩ ⟨some "c", some "s", none, none⟩
        ⟨none, none, some "T1", some "R1"⟩ ⟨true, "u1"⟩).session.oauthState = none ∧
      (authCallback ⟨some "s", some "v", none, none, none⟩ ⟨some "c", some "s", none, none⟩
        ⟨none, none, some "T1", some "R1"⟩ ⟨true, "u1"⟩).session.codeVerifier = none ∧
      (authCallback ⟨some "s", some "v", none, none, none⟩ ⟨some "c", some "s", none, none⟩
        ⟨none, none, some "T1", some "R1"⟩ ⟨true, "u1"⟩).session.accessToken = some "T1" ∧
      (authCallback ⟨some "s", some "v", none, none, none⟩ ⟨some "c", some "s", none, none⟩
        ⟨none, none, some "T1", some "R1"⟩ ⟨true, "u1"⟩).session.refreshToken = some "R1" ∧
      (authCallback ⟨some "s", some "v", none, none, none⟩ ⟨some "c", some "s", none, none⟩
        ⟨none, none, some "T1", some "R1"⟩ ⟨true, "u1"⟩).session.user = some "u1") ∧
    ((authCallbackPopup ⟨some "s", some "v", none, none, none⟩ ⟨some "c", some "s", none, none⟩
        ⟨none, none, some "T1", some "R1"⟩ ⟨true, "u1"⟩).session.oauthState = none ∧
      (authCallbackPopup ⟨some "s", some "v", none, none, none⟩ ⟨some "c", some "s", none, none⟩
        ⟨none, none, some "T1", some "R1"⟩ ⟨true, "u1"⟩).session.codeVerifier = none ∧
      (authCallbackPopup ⟨some "s", some "v", none, none, none⟩ ⟨some "c", some "s", none, none⟩
        ⟨none, none, some "T1", some "R1"⟩ ⟨true, "u1"⟩).session.accessToken = some "T1" ∧
      (authCallbackPopup ⟨some "s", some "v", none, none, none⟩ ⟨some "c", some "s", none, none⟩
        ⟨none, none, some "T1", some "R1"⟩ ⟨true, "u1"⟩).session.refreshToken = some "R1" ∧
      (authCallbackPopup ⟨some "s", some "v", none, none, none⟩ ⟨some "c", some "s", none, none⟩
        ⟨none, none, some "T1", some "R1"⟩ ⟨true, "u1"⟩).session.user = some "u1") := by
  have h := C4_success_clears_pending_and_stores_tokens
    ⟨some "s", some "v", none, none, none⟩ ⟨some "c", some "s", none, none⟩
    ⟨none, none, some "T1", some "R1"⟩ ⟨true, "u1"⟩ "T1" "R1"
    (by decide) (by decide) (by decide) (by decide) (by decide)
  have h1 := h.1 (by decide)
  have h2 := h.2
  exact ⟨⟨h1.1, h1.2.1, h1.2.2.1, h1.2.2.2.1, h1.2.2.2.2 (by decide)⟩,
    ⟨h2.1, h2.2.1, h2.2.2.1, h2.2.2.2.1, h2.2.2.2.2 (by decide)⟩⟩

/-- C7: on either handler, when the exchange succeeds but the profile
fetch is not `ok`, the flow still completes (popup page or redirect to
home), the token response's tokens are stored, and no profile is cached
(starting from a session without one). -/
theorem C7_profile_failure_absorbed (sess : Session) (q : CallbackQuery)
    (tr : TokenResponse) (pr : ProfileResponse)
    (hs : q.state = sess.oauthState) (hv : jsTruthy sess.codeVerifier = true)
    (ht : jsTruthy tr.error = false) (hok : pr.ok = false) (hu : sess.user = none) :
    (jsTruthy q.error = false →
      isComplete (authCallback sess q tr pr).result = true ∧
      (authCallback sess q tr pr).session.accessToken = tr.access_token ∧
      (authCallback sess q tr pr).session.refreshToken = tr.refresh_token ∧
      (authCallback sess q tr pr).session.user = none) ∧
    ((authCallbackPopup sess q tr pr).result = .redirectHome ∧
      (authCallbackPopup sess q tr pr).session.accessToken = tr.access_token ∧
      (authCallbackPopup sess q tr pr).session.refreshToken = tr.refresh_token ∧
      (authCallbackPopup sess q tr pr).session.user = none) := by
  constructor
  · intro he
    by_cases hp : detectPopup sess.oauthState = true <;>
      simp [authCallback, he, hs, hv, ht, hok, hu, hp, isComplete]
  · simp [authCallbackPopup, hs, hv, ht, hok, hu]

/-- C7 witness: a concrete failed profile fetch still completes with the
tokens stored and no cached profile. -/
theorem C7_witness :
    (isComplete (authCallback ⟨some "s", some "v", none, none, none⟩
        ⟨some "c", some "s", none, none⟩ ⟨none, none, some "T1", some "R1"⟩
        ⟨false, "u1"⟩).result = true ∧
      (authCallback ⟨some "s", some "v", none, none, none⟩
        ⟨some "c", some "s", none, none⟩ ⟨none, none, some "T1", some "R1"⟩
        ⟨false, "u1"⟩).session.accessToken = some "T1" ∧
      (authCallback ⟨some "s", some "v", none, none, none⟩
        ⟨some "c", some "s", none, none⟩ ⟨none, none, some "T1", some "R1"⟩
        ⟨false, "u1"⟩).session.refreshToken = some "R1" ∧
      (authCallback ⟨some "s", some "v", none, none, none⟩
        ⟨some "c", some "s", none, none⟩ ⟨none, none, some "T1", some "R1"⟩
        ⟨false, "u1"⟩).session.user = none) ∧
    ((authCallbackPopup ⟨some "s", some "v", none, none, none⟩
        ⟨some "c", some "s", none, none⟩ ⟨none, none, some "T1", some "R1"⟩
        ⟨false, "u1"⟩).result = .redirectHome ∧
      (authCallbackPopup ⟨some "s", some "v", none, none, none⟩
        ⟨some "c", some "s", none, none⟩ ⟨none, none, some "T1", some "R1"⟩
        ⟨false, "u1"⟩).session.accessToken = some "T1" ∧
      (authCallbackPopup ⟨some "s", some "v", none, none, none⟩
        ⟨some "c", some "s", none, none⟩ ⟨none, none, some "T1", some "R1"⟩
        ⟨false, "u1"⟩).session.refreshToken = some "R1" ∧
      (authCallbackPopup ⟨some "s", some "v", none, none, none⟩
        ⟨some "c", some "s", none, none⟩ ⟨none, none, some "T1", some "R1"⟩
        ⟨false, "u1"⟩).session.user = none) :=
  ⟨(C7_profile_failure_absorbed ⟨some "s", some "v", none, none, none⟩
      ⟨some "c", some "s", none, none⟩ ⟨none, none, some "T1", some "R1"⟩ ⟨false, "u1"⟩
      (by decide) (by decide) (by decide) (by decide) (by decide)).1 (by decide),
   (C7_profile_failure_absorbed ⟨some "s", some "v", none, none, none⟩
      ⟨some "c", some "s", none, none⟩ ⟨none, none, some "T1", some "R1"⟩ ⟨false, "u1"⟩
      (by decide) (by decide) (by decide) (by decide) (by decide)).2⟩

/-- C10: whenever the token response carries an `error` field, both
handlers leave the session exactly as it was — in particular the pending
`oauthState` and `codeVerifier` survive a failed exchange. -/
theorem C10_failed_exchange_preserves_session (sess : Session) (q : CallbackQuery)
    (tr : TokenResponse) (pr : ProfileResponse) (ht : jsTruthy tr.error = true) :
    (authCallback sess q tr pr).session = sess ∧
    (authCallbackPopup sess q tr pr).session = sess := by
  constructor
  · by_cases he : jsTruthy q.error = true
    · simp [authCallback, he]
    · by_cases hs : q.state = sess.oauthState
      · by_cases hv : jsTruthy sess.codeVerifier = true
        · simp [authCallback, he, hs, hv, ht]
        · simp [authCallback, he, hs, hv]
      · simp [authCallback, he, hs]
  · by_cases hc : jsTruthy q.state ∧ q.state ≠ sess.oauthState
    · simp only [authCallbackPopup]; rw [if_pos hc]
    · by_cases hv : jsTruthy sess.codeVerifier = true
      · simp only [authCallbackPopup]; rw [if_neg hc]; simp [hv, ht]
      · simp only [authCallbackPopup]; rw [if_neg hc]; simp [hv]

/-- C10 witness: a concrete failed exchange leaves the concrete pending
session untouched on both handlers. -/
theorem C10_witness :
    (authCallback ⟨some "s", some "v", none, none, none⟩ ⟨some "c", some "s", none, none⟩
        ⟨some "invalid_grant", none, none, none⟩ ⟨true, "u"⟩).session =
      ⟨some "s", some "v", none, none, none⟩ ∧
    (authCallbackPopup ⟨some "s", some "v", none, none, none⟩ ⟨some "c", some "s", none, none⟩
        ⟨some "invalid_grant", none, none, none⟩ ⟨true, "u"⟩).session =
      ⟨some "s", some "v", none, none, none⟩ :=
  C10_failed_exchange_preserves_session ⟨some "s", some "v", none, none, none⟩
    ⟨some "c", some "s", none, none⟩ ⟨some "invalid_grant", none, none, none⟩
    ⟨true, "u"⟩ (by decide)

/-- C5: on both `/auth/login` and `/auth/login-popup`, the authorization
URL's query parameters contain `response_type=code`,
`code_challenge_method=S256`, a `code_challenge` equal to
`generateCodeChallenge` of the verifier stored in the session, the
configured client id, redirect URI and scopes, and the stored state. -/
theorem C5_authorize_url_contents (sess : Session) (codeVerifier nonce : String) :
    ((authLogin sess codeVerifier (redirectState nonce)).1.codeVerifier = some codeVerifier ∧
      (authLogin sess codeVerifier (redirectState nonce)).1.oauthState =
        some (redirectState nonce) ∧
      queryLookup (authLogin sess codeVerifier (redirectState nonce)).2 "response_type" =
        some "code" ∧
      queryLookup (authLogin sess codeVerifier (redirectState nonce)).2 "code_challenge_method" =
        some "S256" ∧
      queryLookup (authLogin sess codeVerifier (redirectState nonce)).2 "code_challenge" =
        some (generateCodeChallenge codeVerifier) ∧
      queryLookup (authLogin sess codeVerifier (redirectState nonce)).2 "client_id" =
        some INSFORGE_CLIENT_ID ∧
      queryLookup (authLogin sess codeVerifier (redirectState nonce)).2 "redirect_uri" =
        some CALLBACK_URL ∧
      queryLookup (authLogin sess codeVerifier (redirectState nonce)).2 "scope" =
        some SCOPES ∧
      queryLookup (authLogin sess codeVerifier (redirectState nonce)).2 "state" =
        some (redirectState nonce)) ∧
    ((authLoginPopup sess codeVerifier nonce).1.codeVerifier = some codeVerifier ∧
      (authLoginPopup sess codeVerifier nonce).1.oauthState = some (popupState nonce) ∧
      queryLookup (authLoginPopup sess codeVerifier nonce).2 "response_type" = some "code" ∧
      queryLookup (authLoginPopup sess codeVerifier nonce).2 "code_challenge_method" =
        some "S256" ∧
      queryLookup (authLoginPopup sess codeVerifier nonce).2 "code_challenge" =
        some (generateCodeChallenge codeVerifier) ∧
      queryLookup (authLoginPopup sess codeVerifier nonce).2 "client_id" =
        some INSFORGE_CLIENT_ID ∧
      queryLookup (authLoginPopup sess codeVerifier nonce).2 "redirect_uri" =
        some CALLBACK_URL ∧
      queryLookup (authLoginPopup sess codeVerifier nonce).2 "scope" = some SCOPES ∧
      queryLookup (authLoginPopup sess codeVerifier nonce).2 "state" =
        some (popupState nonce)) :=
  ⟨⟨rfl, rfl, rfl, rfl, rfl, rfl, rfl, rfl, rfl⟩,
   ⟨rfl, rfl, rfl, rfl, rfl, rfl, rfl, rfl, rfl⟩⟩

/-- C6: the redirect-mode state is the raw hex nonce and the popup-mode
state is the nonce with the `:popup` suffix; the delimiter `:` is not in
the hex alphabet, so the callback's suffix test detects every
popup-generated state and never a redirect-generated one. -/
theorem C6_state_mode_roundtrip (nonce : String) (hhex : isHexString nonce) :
    detectPopup (some (popupState nonce)) = true ∧
    detectPopup (some (redirectState nonce)) = false ∧
    ':' ∉ hexAlphabet := by
  refine ⟨?_, ?_, by decide⟩
  · simp [detectPopup, popupState, jsEndsWith, List.isSuffixOf_iff_suffix,
      String.data_append]
  · simp only [detectPopup, redirectState, jsEndsWith]
    rw [Bool.eq_false_iff]
    intro htrue
    have hsuf : ":popup".data <:+ nonce.data := List.isSuffixOf_iff_suffix.mp htrue
    have hmem : ':' ∈ nonce.data := hsuf.subset (by decide)
    exact absurd (hhex ':' hmem) (by decide)

/-- C6 witness: a concrete 32-character hex nonce round-trips through
both modes. -/
theorem C6_witness :
    detectPopup (some (popupState "0123456789abcdef0123456789abcdef")) = true ∧
    detectPopup (some (redirectState "0123456789abcdef0123456789abcdef")) = false ∧
    ':' ∉ hexAlphabet :=
  C6_state_mode_roundtrip "0123456789abcdef0123456789abcdef" (by decide)

set_option maxRecDepth 100000 in
/-- C8: `generateCodeChallenge` is a pure deterministic function equal to
the unpadded base64url encoding of the SHA-256 digest of the verifier; it
matches the RFC 7636 appendix B test vector, and distinct verifiers give
distinct challenges on a concrete pair. -/
theorem C8_challenge_deterministic_digest :
    (∀ v : String, generateCodeChallenge v =
      String.mk (base64urlEncode (sha256Bytes (asciiBytes v)))) ∧
    (∀ v w : String, v = w → generateCodeChallenge v = generateCodeChallenge w) ∧
    generateCodeChallenge "dBjftJeZ4CVP-mB92K27uhbUJU1p1r_wW1gFWFOEjXk" =
      "E9Melhoa2OwvFrEMTJguCHaoeK1t8URWbuGJSstw-cM" ∧
    generateCodeChallenge "verifier-one" ≠ generateCodeChallenge "verifier-two" :=
  ⟨fun _ => rfl, fun _ _ h => h ▸ rfl, by decide, by decide⟩

/-- C8 witness: determinism applied at a concrete verifier. -/
theorem C8_witness :
    generateCodeChallenge "verifier-one" = generateCodeChallenge "verifier-one" :=
  C8_challenge_deterministic_digest.2.1 "verifier-one" "verifier-one" rfl

/-- C9: `/api/organizations` with no session access token responds 401
`Not authenticated` and issues no upstream call; with a non-empty token
it forwards it as a `Bearer` credential and passes the upstream body
through with status 200. -/
theorem C9_organizations_auth_guard (sess : Session) (body : String) :
    (sess.accessToken = none →
      apiOrganizations sess body = (⟨401, "Not authenticated"⟩, none)) ∧
    (∀ t : String, sess.accessToken = some t → t ≠ "" →
      apiOrganizations sess body = (⟨200, body⟩, some ("Bearer " ++ t))) := by
  constructor
  · intro h
    simp [apiOrganizations, h, jsTruthy]
  · intro t h hne
    simp [apiOrganizations, h, jsTruthy, jsOrEmpty, hne]

/-- C9 witness: concrete sessions without and with a token. -/
theorem C9_witness :
    apiOrganizations ⟨none, none, none, none, none⟩ "orgs" =
      (⟨401, "Not authenticated"⟩, none) ∧
    apiOrganizations ⟨none, none, some "tok", none, none⟩ "orgs" =
      (⟨200, "orgs"⟩, some ("Bearer " ++ "tok")) :=
  ⟨(C9_organizations_auth_guard ⟨none, none, none, none, none⟩ "orgs").1 rfl,
   (C9_organizations_auth_guard ⟨none, none, some "tok", none, none⟩ "orgs").2 "tok" rfl
     (by decide)⟩

end InsforgeOAuth
